import Mathlib

/-!
Verification of the kosix-api token-and-session lifecycle and the
team-permission model, as a shallow embedding of
`app/controllers/auth_controller.py` and `app/controllers/team_controller.py`.

Modelling conventions:
- Database tables are Lean lists; SQLAlchemy `.first()` is `List.find?`.
- UUIDs are `Nat` ids; timestamps are `Nat` seconds.  JWT `exp` claims are
  encoded at whole-second granularity, and HS256 encoding of a fixed payload
  shape is deterministic and injective, so a token string is modelled as the
  structure of its payload: two token strings are equal exactly when their
  payloads are equal.
- A presented token string is `Option Token`: `none` stands for a string that
  is malformed or whose signature does not verify; `some t` for the encoding
  of payload `t`.
- bcrypt hashing/verification is external randomness, so `hash_password` /
  `verify_password` are taken as function parameters of the operations that
  use them; the control flow around them is embedded exactly.
- `HTTPException(status_code, detail)` is the error value `Err`; raising it
  before any commit leaves the store unchanged, so each operation returns its
  result together with the (possibly unchanged) store, and `refresh_tokens`
  additionally returns the list of committed intermediate states.
-/

namespace Kosix

/-- JWT token kind tag, the `"type"` claim (`"access"` / `"refresh"`). -/
inductive TokenType where
  | access : TokenType
  | refresh : TokenType
deriving DecidableEq, Repr

/-- Payload of a JWT issued by `create_access_token` / `create_refresh_token`:
`sub` (account id), `exp` (absolute expiry, whole seconds), `typ` (the
`"type"` claim).  Token-string equality is payload equality. -/
structure Token where
  sub : Nat
  exp : Nat
  typ : TokenType
deriving DecidableEq, Repr

/-- An `HTTPException(status_code, detail)` surfaced to the caller. -/
structure Err where
  statusCode : Nat
  detail : String
deriving DecidableEq, Repr

def tokenExpiredErr : Err := ⟨401, "Token has expired"⟩

def invalidTokenErr : Err := ⟨401, "Invalid token"⟩

def invalidTokenTypeErr : Err := ⟨401, "Invalid token type"⟩

def sessionNotFoundErr : Err := ⟨401, "Session not found or expired"⟩

def accountNotFoundErr : Err := ⟨401, "Account not found"⟩

def invalidCredentialsErr : Err := ⟨401, "Invalid email or password"⟩

def duplicateEmailErr : Err := ⟨400, "Email already registered"⟩

def duplicateUsernameErr : Err := ⟨400, "Username already taken"⟩

/-- Modelled from the spec: `app/models/account.py` is not present in the
source tree; spec §3 "Account" lists unique id, unique email, unique
username, optional display name, optional password hash.  Only the fields the
verified controllers read are carried. -/
structure Account where
  id : Nat
  email : String
  username : String
  name : Option String
  passwordHash : Option String
deriving DecidableEq, Repr

/-- Modelled from the spec: `app/models/session.py` is not present in the
source tree; spec §3 "Session" lists owning account id, the refresh token
string (lookup key), expiry timestamp, optional client IP, active flag. -/
structure SessionRow where
  accountId : Nat
  sessionToken : Token
  expiresAt : Nat
  ipAddress : Option String
  isActive : Bool
deriving DecidableEq, Repr

/-- JWT settings from `app/core/config.py`, in seconds:
`JWT_ACCESS_TOKEN_EXPIRE_MINUTES` and `JWT_REFRESH_TOKEN_EXPIRE_DAYS`. -/
structure Cfg where
  accessTTL : Nat
  refreshTTL : Nat
deriving DecidableEq, Repr

/-- Defaults: 30 minutes and 7 days. -/
def defaultCfg : Cfg := ⟨30 * 60, 7 * 86400⟩

/-- The account and session tables seen by `AuthController`. -/
structure AuthDB where
  accounts : List Account
  sessions : List SessionRow
deriving DecidableEq, Repr

/-- Python truthiness of `account.password_hash` (falsy when `None` or the
empty string). -/
def truthyHash : Option String → Bool
  | none => false
  | some s => !(s == "")

/-- `AuthController.create_access_token` with the default TTL. -/
def create_access_token (cfg : Cfg) (accountId : Nat) (now : Nat) : Token :=
  ⟨accountId, now + cfg.accessTTL, TokenType.access⟩

/-- `AuthController.create_refresh_token` with the default TTL. -/
def create_refresh_token (cfg : Cfg) (accountId : Nat) (now : Nat) : Token :=
  ⟨accountId, now + cfg.refreshTTL, TokenType.refresh⟩

/-- `TokenResponse`: the issued pair plus `expires_in` (access TTL in
seconds). -/
structure TokenPair where
  access_token : Token
  refresh_token : Token
  expires_in : Nat
deriving DecidableEq, Repr

/-- `AuthController.create_tokens`. -/
def create_tokens (cfg : Cfg) (accountId : Nat) (now : Nat) : TokenPair :=
  { access_token := create_access_token cfg accountId now
    refresh_token := create_refresh_token cfg accountId now
    expires_in := cfg.accessTTL }

/-- `AuthController.decode_token`: a malformed / badly-signed string is
`Invalid token`; a verified payload past its expiry is `Token has expired`. -/
def decode_token (tok : Option Token) (now : Nat) : Except Err Token :=
  match tok with
  | none => Except.error invalidTokenErr
  | some t => if t.exp ≤ now then Except.error tokenExpiredErr else Except.ok t

/-- `AuthController.register`: duplicate-email check, then duplicate-username
check, then account insert (committed) and token issuance.  `hashPw` is the
bcrypt `hash_password`; `newId` is the id the database generates for the new
row.  No session row is touched. -/
def register (hashPw : String → String) (cfg : Cfg) (db : AuthDB)
    (email username : String) (name : Option String) (password : String)
    (newId now : Nat) : Except Err (Account × TokenPair) × AuthDB :=
  if (db.accounts.find? (fun a => a.email == email)).isSome then
    (Except.error duplicateEmailErr, db)
  else if (db.accounts.find? (fun a => a.username == username)).isSome then
    (Except.error duplicateUsernameErr, db)
  else
    let account : Account :=
      { id := newId, email := email, username := username, name := name
        passwordHash := some (hashPw password) }
    let tokens := create_tokens cfg newId now
    (Except.ok (account, tokens), { db with accounts := db.accounts ++ [account] })

/-- `AuthController.login`: account lookup by email, password-hash
truthiness check and bcrypt verification (parameter `verify`), then token
issuance and insertion of one active session row keyed by the new refresh
token.  Both failure branches raise 401 "Invalid email or password". -/
def login (verify : String → String → Bool) (cfg : Cfg) (db : AuthDB)
    (email password : String) (ip : Option String) (now : Nat) :
    Except Err (Account × TokenPair) × AuthDB :=
  match db.accounts.find? (fun a => a.email == email) with
  | none => (Except.error invalidCredentialsErr, db)
  | some account =>
    if !truthyHash account.passwordHash
        || !verify password (account.passwordHash.getD "") then
      (Except.error invalidCredentialsErr, db)
    else
      let tokens := create_tokens cfg account.id now
      let s : SessionRow :=
        { accountId := account.id, sessionToken := tokens.refresh_token
          expiresAt := now + cfg.refreshTTL, ipAddress := ip, isActive := true }
      (Except.ok (account, tokens), { db with sessions := db.sessions ++ [s] })

/-- `session.is_active = False` on the row `.first()` returned: flips the
active flag of the first session matching the token that is still active. -/
def deactivate_first : List SessionRow → Token → List SessionRow
  | [], _ => []
  | s :: rest, tok =>
    if s.sessionToken == tok && s.isActive then
      { s with isActive := false } :: rest
    else
      s :: deactivate_first rest tok

/-- `AuthController.refresh_tokens`.  Checks in source order: decode, token
kind, active-session lookup by exact token, account lookup by the token's
subject.  Only then the two commits of the source: first
`session.is_active = False; db.commit()`, then `db.add(new_session);
db.commit()`.  Returns the result, the final store, and the list of committed
states (empty when an exception is raised before any commit). -/
def refresh_tokens (cfg : Cfg) (db : AuthDB) (tok : Option Token) (now : Nat) :
    Except Err TokenPair × AuthDB × List AuthDB :=
  match decode_token tok now with
  | Except.error e => (Except.error e, db, [])
  | Except.ok payload =>
    if payload.typ = TokenType.refresh then
      match db.sessions.find? (fun s => s.sessionToken == payload && s.isActive) with
      | none => (Except.error sessionNotFoundErr, db, [])
      | some session =>
        match db.accounts.find? (fun a => a.id == payload.sub) with
        | none => (Except.error accountNotFoundErr, db, [])
        | some account =>
          let db1 : AuthDB := { db with sessions := deactivate_first db.sessions payload }
          let tokens := create_tokens cfg account.id now
          let newSession : SessionRow :=
            { accountId := account.id, sessionToken := tokens.refresh_token
              expiresAt := now + cfg.refreshTTL, ipAddress := session.ipAddress
              isActive := true }
          let db2 : AuthDB := { db1 with sessions := db1.sessions ++ [newSession] }
          (Except.ok tokens, db2, [db1, db2])
    else
      (Except.error invalidTokenTypeErr, db, [])

/-- `AuthController.logout`: deactivates the first active session matching
the presented refresh token if one exists; always returns the success
message. -/
def logout (db : AuthDB) (tok : Token) : String × AuthDB :=
  match db.sessions.find? (fun s => s.sessionToken == tok && s.isActive) with
  | some _ =>
    ("Successfully logged out", { db with sessions := deactivate_first db.sessions tok })
  | none => ("Successfully logged out", db)

/-! ## Team controller (`app/controllers/team_controller.py`) -/

/-- Modelled from the spec: `app/models/team.py` is not present in the source
tree; spec §3 "Team" lists id, name, optional avatar reference, owner account
id (exactly one). -/
structure Team where
  id : Nat
  name : String
  avatarUrl : Option String
  ownerId : Nat
deriving DecidableEq, Repr

/-- The tables seen by `TeamController`: accounts, teams, and the two
association tables `team_members` / `team_managers` of
(team id, account id) rows. -/
structure TeamDB where
  accounts : List Account
  teams : List Team
  teamMembers : List (Nat × Nat)
  teamManagers : List (Nat × Nat)
deriving DecidableEq, Repr

def teamNotFoundErr : Err := ⟨404, "Team not found"⟩

def forbiddenUpdateTeamErr : Err := ⟨403, "You don't have permission to update this team"⟩

def forbiddenAddMembersErr : Err := ⟨403, "You don't have permission to add members"⟩

def forbiddenRemoveMembersErr : Err := ⟨403, "You don't have permission to remove members"⟩

def forbiddenAddManagersErr : Err := ⟨403, "Only the team owner can add managers"⟩

def forbiddenRemoveManagersErr : Err := ⟨403, "Only the team owner can remove managers"⟩

def forbiddenTransferErr : Err := ⟨403, "Only the team owner can transfer ownership"⟩

def newOwnerNotFoundErr : Err := ⟨404, "New owner account not found"⟩

def ownerCannotLeaveErr : Err := ⟨400, "Team owner cannot leave. Transfer ownership first."⟩

/-- `db.query(Team).filter(Team.id == team_id).first()`. -/
def findTeam (db : TeamDB) (teamId : Nat) : Option Team :=
  db.teams.find? (fun t => t.id == teamId)

/-- `db.query(Account).filter(Account.id == account_id).first()`. -/
def findAccountById (accounts : List Account) (accountId : Nat) : Option Account :=
  accounts.find? (fun a => a.id == accountId)

/-- Membership test on an association table:
`db.query(rel).filter(rel.c.team_id == team_id, rel.c.account_id ==
account_id).first() is not None`. -/
def inRelation (rel : List (Nat × Nat)) (teamId accountId : Nat) : Bool :=
  (rel.find? (fun p => p.1 == teamId && p.2 == accountId)).isSome

/-- `TeamController.create_team`: unconditionally inserts a team row owned by
the caller; `newId` is the database-generated id. -/
def create_team (db : TeamDB) (name : String) (avatarUrl : Option String)
    (ownerId newId : Nat) : Except Err Team × TeamDB :=
  let team : Team := ⟨newId, name, avatarUrl, ownerId⟩
  (Except.ok team, { db with teams := db.teams ++ [team] })

/-- The per-account-id loop shared verbatim by `add_members` and
`add_managers`: skip ids with no account row, skip ids already in the
relation (as seen inside the current transaction, so an insert earlier in
the same call is visible), otherwise insert and count. -/
def addLoop (accounts : List Account) (teamId : Nat) :
    List Nat → List (Nat × Nat) → List (Nat × Nat) × Nat
  | [], rel => (rel, 0)
  | aid :: rest, rel =>
    match findAccountById accounts aid with
    | none => addLoop accounts teamId rest rel
    | some _ =>
      if inRelation rel teamId aid then
        addLoop accounts teamId rest rel
      else
        let r := addLoop accounts teamId rest (rel ++ [(teamId, aid)])
        (r.1, r.2 + 1)

/-- The SQL `DELETE ... WHERE team_id = :tid AND account_id IN :ids` shared
by `remove_members` and `remove_managers`: returns the surviving rows and the
`rowcount` of deleted rows. -/
def deleteFromRelation (rel : List (Nat × Nat)) (teamId : Nat)
    (accountIds : List Nat) : List (Nat × Nat) × Nat :=
  let kept := rel.filter (fun p => !(p.1 == teamId && accountIds.contains p.2))
  (kept, rel.length - kept.length)

/-- `TeamController.add_members` (owner or manager); the returned `Nat` is
the `added_count` reported in the response message. -/
def add_members (db : TeamDB) (teamId : Nat) (accountIds : List Nat)
    (currentUserId : Nat) : Except Err Nat × TeamDB :=
  match findTeam db teamId with
  | none => (Except.error teamNotFoundErr, db)
  | some team =>
    let isManager := inRelation db.teamManagers teamId currentUserId
    if !(team.ownerId == currentUserId) && !isManager then
      (Except.error forbiddenAddMembersErr, db)
    else
      let r := addLoop db.accounts teamId accountIds db.teamMembers
      (Except.ok r.2, { db with teamMembers := r.1 })

/-- `TeamController.remove_members` (owner or manager); the returned `Nat`
is the `rowcount` reported in the response message. -/
def remove_members (db : TeamDB) (teamId : Nat) (accountIds : List Nat)
    (currentUserId : Nat) : Except Err Nat × TeamDB :=
  match findTeam db teamId with
  | none => (Except.error teamNotFoundErr, db)
  | some team =>
    let isManager := inRelation db.teamManagers teamId currentUserId
    if !(team.ownerId == currentUserId) && !isManager then
      (Except.error forbiddenRemoveMembersErr, db)
    else
      let r := deleteFromRelation db.teamMembers teamId accountIds
      (Except.ok r.2, { db with teamMembers := r.1 })

/-- `TeamController.add_managers` (owner only). -/
def add_managers (db : TeamDB) (teamId : Nat) (accountIds : List Nat)
    (currentUserId : Nat) : Except Err Nat × TeamDB :=
  match findTeam db teamId with
  | none => (Except.error teamNotFoundErr, db)
  | some team =>
    if !(team.ownerId == currentUserId) then
      (Except.error forbiddenAddManagersErr, db)
    else
      let r := addLoop db.accounts teamId accountIds db.teamManagers
      (Except.ok r.2, { db with teamManagers := r.1 })

/-- `TeamController.remove_managers` (owner only). -/
def remove_managers (db : TeamDB) (teamId : Nat) (accountIds : List Nat)
    (currentUserId : Nat) : Except Err Nat × TeamDB :=
  match findTeam db teamId with
  | none => (Except.error teamNotFoundErr, db)
  | some team =>
    if !(team.ownerId == currentUserId) then
      (Except.error forbiddenRemoveManagersErr, db)
    else
      let r := deleteFromRelation db.teamManagers teamId accountIds
      (Except.ok r.2, { db with teamManagers := r.1 })

/-- `TeamController.update_team` (owner or manager): optional new name and
avatar; team ids are primary keys, so replacing every row with the matching
id updates exactly the row `.first()` returned. -/
def update_team (db : TeamDB) (teamId : Nat) (newName : Option String)
    (newAvatarUrl : Option String) (currentUserId : Nat) :
    Except Err Team × TeamDB :=
  match findTeam db teamId with
  | none => (Except.error teamNotFoundErr, db)
  | some team =>
    let isManager := inRelation db.teamManagers teamId currentUserId
    if !(team.ownerId == currentUserId) && !isManager then
      (Except.error forbiddenUpdateTeamErr, db)
    else
      let team2 : Team :=
        { team with
          name := newName.getD team.name
          avatarUrl := match newAvatarUrl with
            | some a => some a
            | none => team.avatarUrl }
      (Except.ok team2,
        { db with teams := db.teams.map (fun t => if t.id == teamId then team2 else t) })

/-- `TeamController.transfer_ownership` (owner only; target account must
exist): rewrites `owner_id` and nothing else — in particular the new owner
is not removed from the members/managers relations. -/
def transfer_ownership (db : TeamDB) (teamId newOwnerId currentUserId : Nat) :
    Except Err Team × TeamDB :=
  match findTeam db teamId with
  | none => (Except.error teamNotFoundErr, db)
  | some team =>
    if !(team.ownerId == currentUserId) then
      (Except.error forbiddenTransferErr, db)
    else
      match findAccountById db.accounts newOwnerId with
      | none => (Except.error newOwnerNotFoundErr, db)
      | some _ =>
        let team2 : Team := { team with ownerId := newOwnerId }
        (Except.ok team2,
          { db with teams := db.teams.map (fun t => if t.id == teamId then team2 else t) })

/-- `TeamController.leave_team`: the owner is refused; anyone else is deleted
from both association tables (all rows for that team/account pair). -/
def leave_team (db : TeamDB) (teamId accountId : Nat) :
    Except Err String × TeamDB :=
  match findTeam db teamId with
  | none => (Except.error teamNotFoundErr, db)
  | some team =>
    if team.ownerId == accountId then
      (Except.error ownerCannotLeaveErr, db)
    else
      (Except.ok "Successfully left the team",
        { db with
          teamMembers := db.teamMembers.filter (fun p => !(p.1 == teamId && p.2 == accountId))
          teamManagers := db.teamManagers.filter (fun p => !(p.1 == teamId && p.2 == accountId)) })

/-! ## Helper lemmas -/

theorem find?_append_none {α : Type} {p : α → Bool} {l1 l2 : List α}
    (h : l1.find? p = none) : (l1 ++ l2).find? p = l2.find? p := by
  rw [List.find?_append, h, Option.none_or]

theorem deactivate_first_append_nomatch (l l2 : List SessionRow) (tok : Token)
    (h : ∀ x ∈ l, (x.sessionToken == tok && x.isActive) = false) :
    deactivate_first (l ++ l2) tok = l ++ deactivate_first l2 tok := by
  induction l with
  | nil => rfl
  | cons s rest ih =>
    have hs := h s (List.mem_cons_self s rest)
    simp only [List.cons_append, deactivate_first, hs, Bool.false_eq_true, if_false,
      List.append_eq]
    rw [ih fun x hx => h x (List.mem_cons_of_mem s hx)]

theorem deactivate_first_nomatch (l : List SessionRow) (tok : Token)
    (h : ∀ x ∈ l, (x.sessionToken == tok && x.isActive) = false) :
    deactivate_first l tok = l := by
  have := deactivate_first_append_nomatch l [] tok h
  simpa [deactivate_first] using this

theorem countP_deactivate_first (l : List SessionRow) (tok : Token) (s : SessionRow)
    (h : l.find? (fun x => x.sessionToken == tok && x.isActive) = some s) :
    (deactivate_first l tok).countP (fun x => x.sessionToken == tok && x.isActive) + 1
      = l.countP (fun x => x.sessionToken == tok && x.isActive) := by
  induction l with
  | nil => simp at h
  | cons hd rest ih =>
    by_cases hh : (hd.sessionToken == tok && hd.isActive) = true
    · simp only [deactivate_first, hh, if_true]
      rw [List.countP_cons, List.countP_cons]
      have hoff : (({ hd with isActive := false } : SessionRow).sessionToken == tok
          && ({ hd with isActive := false } : SessionRow).isActive) = false := by
        simp
      simp [hoff, hh]
    · have h2 : rest.find? (fun x => x.sessionToken == tok && x.isActive) = some s := by
        rw [List.find?_cons] at h
        simpa [hh] using h
      have := ih h2
      simp only [deactivate_first, hh, Bool.false_eq_true, if_false]
      rw [List.countP_cons, List.countP_cons]
      simp only [hh, Bool.false_eq_true, if_false]
      omega

/-! ## Claims -/

/-- C4: every failing `login` — unknown email, missing/empty password hash,
or failed hash verification — fails with the identical 401
"Invalid email or password" error and leaves the store unchanged, so the
response does not reveal whether the account exists. -/
theorem c4_login_failure_uniform (verify : String → String → Bool) (cfg : Cfg)
    (db : AuthDB) (email password : String) (ip : Option String) (now : Nat) :
    (∀ e, (login verify cfg db email password ip now).1 = Except.error e →
      e = invalidCredentialsErr ∧ (login verify cfg db email password ip now).2 = db)
    ∧ (db.accounts.find? (fun a => a.email == email) = none →
      (login verify cfg db email password ip now).1 = Except.error invalidCredentialsErr)
    ∧ (∀ acct, db.accounts.find? (fun a => a.email == email) = some acct →
      truthyHash acct.passwordHash = false →
      (login verify cfg db email password ip now).1 = Except.error invalidCredentialsErr)
    ∧ (∀ acct, db.accounts.find? (fun a => a.email == email) = some acct →
      verify password (acct.passwordHash.getD "") = false →
      (login verify cfg db email password ip now).1 = Except.error invalidCredentialsErr) := by
  unfold login
  cases hf : db.accounts.find? (fun a => a.email == email) with
  | none => simp
  | some acct =>
    cases ht : truthyHash acct.passwordHash with
    | false => simp [ht]
    | true =>
      cases hv : verify password (acct.passwordHash.getD "") with
      | false => simp [ht, hv]
      | true => simp [ht, hv]

/-- C4 witness: a store whose single account's email does not match. -/
theorem c4_witness :
    (login (fun _ _ => true) defaultCfg ⟨[⟨1, "a@x.com", "alice", none, some "H"⟩], []⟩
      "b@x.com" "pw" none 0).1 = Except.error invalidCredentialsErr :=
  (c4_login_failure_uniform (fun _ _ => true) defaultCfg
    ⟨[⟨1, "a@x.com", "alice", none, some "H"⟩], []⟩
    "b@x.com" "pw" none 0).2.1 (by decide)

/-- C5: `register` fails with the duplicate-email error when the email is
taken, with the duplicate-username error when the email is free but the
username is taken (exact string match), and otherwise inserts exactly one
account carrying the hashed password, returns it with a fresh token pair,
and leaves the session table untouched. -/
theorem c5_register_spec (hashPw : String → String) (cfg : Cfg) (db : AuthDB)
    (email username : String) (nm : Option String) (password : String)
    (newId now : Nat) :
    ((db.accounts.find? (fun a => a.email == email)).isSome = true →
      register hashPw cfg db email username nm password newId now
        = (Except.error duplicateEmailErr, db))
    ∧ ((db.accounts.find? (fun a => a.email == email)).isSome = false →
      (db.accounts.find? (fun a => a.username == username)).isSome = true →
      register hashPw cfg db email username nm password newId now
        = (Except.error duplicateUsernameErr, db))
    ∧ ((db.accounts.find? (fun a => a.email == email)).isSome = false →
      (db.accounts.find? (fun a => a.username == username)).isSome = false →
      register hashPw cfg db email username nm password newId now
        = (Except.ok
            (⟨newId, email, username, nm, some (hashPw password)⟩,
              create_tokens cfg newId now),
            { db with accounts :=
                db.accounts ++ [⟨newId, email, username, nm, some (hashPw password)⟩] })
        ∧ (register hashPw cfg db email username nm password newId now).2.sessions
            = db.sessions) := by
  refine ⟨fun h1 => ?_, fun h1 h2 => ?_, fun h1 h2 => ?_⟩
  · unfold register
    rw [if_pos h1]
  · unfold register
    rw [if_neg (by simp [h1]), if_pos h2]
  · unfold register
    rw [if_neg (by simp [h1]), if_neg (by simp [h2])]
    exact ⟨rfl, rfl⟩

/-- C5 witness: an empty store accepts a registration and creates no
session. -/
theorem c5_witness :
    register (fun s => s) defaultCfg ⟨[], []⟩ "a@x.com" "alice" none "pw" 1 0
      = (Except.ok (⟨1, "a@x.com", "alice", none, some "pw"⟩, create_tokens defaultCfg 1 0),
          ⟨[⟨1, "a@x.com", "alice", none, some "pw"⟩], []⟩) :=
  ((c5_register_spec (fun s => s) defaultCfg ⟨[], []⟩ "a@x.com" "alice" none "pw" 1 0).2.2
    (by decide) (by decide)).1

/-- C9: `logout` always returns the success message (so a second call with
the same token is not an error either); when no active session matches the
token the store is unchanged, and when one does, the first matching active
session is deactivated (the number of active sessions carrying the token
drops by one). -/
theorem c9_logout_idempotent (db : AuthDB) (tok : Token) :
    (logout db tok).1 = "Successfully logged out"
    ∧ (db.sessions.find? (fun s => s.sessionToken == tok && s.isActive) = none →
      (logout db tok).2 = db)
    ∧ (∀ s, db.sessions.find? (fun s2 => s2.sessionToken == tok && s2.isActive) = some s →
      (logout db tok).2 = { db with sessions := deactivate_first db.sessions tok }
      ∧ ((logout db tok).2.sessions.countP
            (fun x => x.sessionToken == tok && x.isActive)) + 1
          = db.sessions.countP (fun x => x.sessionToken == tok && x.isActive))
    ∧ (logout (logout db tok).2 tok).1 = "Successfully logged out" := by
  have hfst : ∀ (db2 : AuthDB), (logout db2 tok).1 = "Successfully logged out" := by
    intro db2
    unfold logout
    cases h : db2.sessions.find? (fun s => s.sessionToken == tok && s.isActive) <;> rfl
  cases hf : db.sessions.find? (fun s => s.sessionToken == tok && s.isActive) with
  | none =>
    refine ⟨hfst db, fun _ => ?_, fun s hs => ?_, hfst _⟩
    · simp [logout, hf]
    · exact Option.noConfusion hs
  | some s0 =>
    refine ⟨hfst db, fun hn => ?_, fun s hs => ⟨?_, ?_⟩, hfst _⟩
    · exact Option.noConfusion hn
    · simp [logout, hf]
    · simp only [logout, hf]
      exact countP_deactivate_first db.sessions tok s0 hf

/-- C9 witness: logging out a token with no matching session succeeds and
changes nothing. -/
theorem c9_witness :
    (logout ⟨[], []⟩ ⟨1, 5, TokenType.refresh⟩).2 = (⟨[], []⟩ : AuthDB) :=
  (c9_logout_idempotent ⟨[], []⟩ ⟨1, 5, TokenType.refresh⟩).2.1 (by decide)

/-- C10: whenever `refresh_tokens` fails — malformed or expired token, wrong
token kind, no matching active session, or missing account — nothing is
committed and the store is unchanged; in particular, when only the account
lookup fails, the active session matching the presented token is still
active (the store, including that session row, is exactly the input
store). -/
theorem c10_refresh_failure_frame (cfg : Cfg) (db : AuthDB) (tok : Option Token)
    (now : Nat) :
    (∀ e, (refresh_tokens cfg db tok now).1 = Except.error e →
      (refresh_tokens cfg db tok now).2.1 = db
      ∧ (refresh_tokens cfg db tok now).2.2 = [])
    ∧ (∀ t s, tok = some t → now < t.exp → t.typ = TokenType.refresh →
      db.sessions.find? (fun s2 => s2.sessionToken == t && s2.isActive) = some s →
      db.accounts.find? (fun a => a.id == t.sub) = none →
      refresh_tokens cfg db tok now = (Except.error accountNotFoundErr, db, [])) := by
  constructor
  · intro e he
    unfold refresh_tokens at he ⊢
    cases hd : decode_token tok now with
    | error e2 => simp [hd] at he ⊢
    | ok payload =>
      by_cases hty : payload.typ = TokenType.refresh
      · cases hs : db.sessions.find? (fun s => s.sessionToken == payload && s.isActive) with
        | none => simp [hd, hty, hs] at he ⊢
        | some session =>
          cases ha : db.accounts.find? (fun a => a.id == payload.sub) with
          | none => simp [hd, hty, hs, ha] at he ⊢
          | some account => simp [hd, hty, hs, ha] at he
      · simp [hd, hty] at he ⊢
  · intro t s htok hexp hty hs ha
    subst htok
    have hd : decode_token (some t) now = Except.ok t := by
      simp [decode_token, Nat.not_le.mpr hexp]
    unfold refresh_tokens
    simp [hd, hty, hs, ha]

/-- C10 witness: a malformed token leaves the store untouched and commits
nothing. -/
theorem c10_witness :
    (refresh_tokens defaultCfg ⟨[], []⟩ none 0).2.1 = (⟨[], []⟩ : AuthDB)
    ∧ (refresh_tokens defaultCfg ⟨[], []⟩ none 0).2.2 = [] :=
  (c10_refresh_failure_frame defaultCfg ⟨[], []⟩ none 0).1 invalidTokenErr rfl

theorem inRelation_filter_self (l : List (Nat × Nat)) (tid aid : Nat) :
    inRelation (l.filter (fun p => !(p.1 == tid && p.2 == aid))) tid aid = false := by
  unfold inRelation
  have h : (l.filter (fun p => !(p.1 == tid && p.2 == aid))).find?
      (fun p => p.1 == tid && p.2 == aid) = none := by
    rw [List.find?_eq_none]
    intro x hx
    have h2 := (List.mem_filter.mp hx).2
    simp only [Bool.not_eq_true'] at h2
    simp [h2]
  rw [h]
  rfl

/-- C8: on an existing team, `leave_team` by the current owner fails with
the owner-cannot-leave error and changes nothing, while `leave_team` by any
other account succeeds and deletes that account from both the members and
the managers relation. -/
theorem c8_leave_team (db : TeamDB) (teamId accountId : Nat) (team : Team)
    (hteam : findTeam db teamId = some team) :
    (team.ownerId = accountId →
      leave_team db teamId accountId = (Except.error ownerCannotLeaveErr, db))
    ∧ (team.ownerId ≠ accountId →
      (leave_team db teamId accountId).1 = Except.ok "Successfully left the team"
      ∧ (leave_team db teamId accountId).2
          = { db with
              teamMembers :=
                db.teamMembers.filter (fun p => !(p.1 == teamId && p.2 == accountId))
              teamManagers :=
                db.teamManagers.filter (fun p => !(p.1 == teamId && p.2 == accountId)) }
      ∧ inRelation (leave_team db teamId accountId).2.teamMembers teamId accountId = false
      ∧ inRelation (leave_team db teamId accountId).2.teamManagers teamId accountId = false) := by
  constructor
  · intro ho
    unfold leave_team
    rw [hteam]
    simp [ho]
  · intro ho
    have hb : (team.ownerId == accountId) = false := by
      simp [ho]
    simp only [leave_team, hteam, hb, Bool.false_eq_true, if_false]
    exact ⟨trivial, trivial, inRelation_filter_self _ _ _, inRelation_filter_self _ _ _⟩

/-- C8 witness: team 10 is owned by account 1; the owner is refused, while
account 2 leaves successfully and disappears from both relations. -/
theorem c8_witness :
    leave_team ⟨[], [⟨10, "T", none, 1⟩], [(10, 2)], [(10, 2)]⟩ 10 1
      = (Except.error ownerCannotLeaveErr, ⟨[], [⟨10, "T", none, 1⟩], [(10, 2)], [(10, 2)]⟩)
    ∧ (leave_team ⟨[], [⟨10, "T", none, 1⟩], [(10, 2)], [(10, 2)]⟩ 10 2).1
      = Except.ok "Successfully left the team" :=
  ⟨(c8_leave_team ⟨[], [⟨10, "T", none, 1⟩], [(10, 2)], [(10, 2)]⟩ 10 1
      ⟨10, "T", none, 1⟩ rfl).1 rfl,
    ((c8_leave_team ⟨[], [⟨10, "T", none, 1⟩], [(10, 2)], [(10, 2)]⟩ 10 2
      ⟨10, "T", none, 1⟩ rfl).2 (by decide)).1⟩

/-- C6: on an existing team, an account that is a manager but not the owner
is refused by `add_managers` and `remove_managers` (403, owner-only) yet
succeeds at `update_team`; the owner is accepted by `add_managers`, and an
account that is neither owner nor manager is refused by `update_team`. -/
theorem c6_manager_tier (db : TeamDB) (teamId u : Nat) (team : Team)
    (ids : List Nat) (nm av : Option String)
    (hteam : findTeam db teamId = some team)
    (hmgr : inRelation db.teamManagers teamId u = true)
    (hnotowner : team.ownerId ≠ u) :
    add_managers db teamId ids u = (Except.error forbiddenAddManagersErr, db)
    ∧ remove_managers db teamId ids u = (Except.error forbiddenRemoveManagersErr, db)
    ∧ (∃ t2, (update_team db teamId nm av u).1 = Except.ok t2)
    ∧ (∃ n, (add_managers db teamId ids team.ownerId).1 = Except.ok n)
    ∧ (∀ v, team.ownerId ≠ v → inRelation db.teamManagers teamId v = false →
      update_team db teamId nm av v = (Except.error forbiddenUpdateTeamErr, db)) := by
  have hb : (team.ownerId == u) = false := by
    simp [hnotowner]
  refine ⟨?_, ?_, ?_, ?_, ?_⟩
  · unfold add_managers
    rw [hteam]
    simp [hb]
  · unfold remove_managers
    rw [hteam]
    simp [hb]
  · unfold update_team
    rw [hteam]
    simp only [hmgr, hb, Bool.not_false, Bool.not_true, Bool.and_false,
      Bool.false_eq_true, if_false]
    exact ⟨_, rfl⟩
  · unfold add_managers
    rw [hteam]
    simp
  · intro v hv hnm
    have hbv : (team.ownerId == v) = false := by
      simp [hv]
    unfold update_team
    rw [hteam]
    simp [hbv, hnm]

/-- C6 witness: team 10 owned by 1 with manager 2: manager 2 is refused by
`add_managers` but allowed by `update_team`. -/
theorem c6_witness :
    add_managers ⟨[], [⟨10, "T", none, 1⟩], [], [(10, 2)]⟩ 10 [3] 2
      = (Except.error forbiddenAddManagersErr, ⟨[], [⟨10, "T", none, 1⟩], [], [(10, 2)]⟩)
    ∧ (∃ t2, (update_team ⟨[], [⟨10, "T", none, 1⟩], [], [(10, 2)]⟩ 10 none none 2).1
        = Except.ok t2) :=
  ⟨(c6_manager_tier ⟨[], [⟨10, "T", none, 1⟩], [], [(10, 2)]⟩ 10 2 ⟨10, "T", none, 1⟩
      [3] none none rfl rfl (by decide)).1,
    (c6_manager_tier ⟨[], [⟨10, "T", none, 1⟩], [], [(10, 2)]⟩ 10 2 ⟨10, "T", none, 1⟩
      [3] none none rfl rfl (by decide)).2.2.1⟩

def c2acct : Account := ⟨1, "a@x.com", "alice", none, some "H"⟩

def c2tok : Token := ⟨1, 700, TokenType.refresh⟩

def c2db : AuthDB := ⟨[c2acct], [⟨1, c2tok, 700, none, true⟩]⟩

/-- The state committed by the first of the two `db.commit()` calls inside
`refresh_tokens`, for the concrete run of `c2_counterexample`. -/
def c2mid : AuthDB := ⟨[c2acct], [⟨1, c2tok, 700, none, false⟩]⟩

/-- C2 counterexample: a successful refresh commits twice, not once.  The
first committed state `c2mid` already has the old session deactivated but
contains no session for the new refresh token, and it differs from the
final committed state — a committed intermediate state of exactly the kind
the claim rules out. -/
theorem c2_counterexample :
    (refresh_tokens defaultCfg c2db (some c2tok) 10).2.2
      = [c2mid, (refresh_tokens defaultCfg c2db (some c2tok) 10).2.1]
    ∧ (refresh_tokens defaultCfg c2db (some c2tok) 10).1.isOk = true
    ∧ c2mid.sessions = [⟨1, c2tok, 700, none, false⟩]
    ∧ c2mid ≠ (refresh_tokens defaultCfg c2db (some c2tok) 10).2.1 :=
  ⟨rfl, rfl, rfl, by decide⟩

/-- C2 amended: every successful `refresh_tokens` run commits exactly twice:
the first commit only deactivates the found session (the new session is not
yet inserted), and the second commit appends the new active session carrying
the new refresh token, the same IP and the new expiry.  The rotation is
therefore not a single transactional commit, but no committed state ever
holds both token generations active: the old session is deactivated in the
same commit boundary before the new one exists. -/
theorem c2_amended_two_commits (cfg : Cfg) (db : AuthDB) (t : Token) (now : Nat)
    (pair : TokenPair) (dbF : AuthDB) (commits : List AuthDB)
    (h : refresh_tokens cfg db (some t) now = (Except.ok pair, dbF, commits)) :
    ∃ s newS,
      db.sessions.find? (fun s2 => s2.sessionToken == t && s2.isActive) = some s
      ∧ commits = [⟨db.accounts, deactivate_first db.sessions t⟩, dbF]
      ∧ dbF = ⟨db.accounts, deactivate_first db.sessions t ++ [newS]⟩
      ∧ newS.sessionToken = pair.refresh_token
      ∧ newS.isActive = true
      ∧ newS.ipAddress = s.ipAddress
      ∧ newS.expiresAt = now + cfg.refreshTTL := by
  unfold refresh_tokens at h
  split at h
  · exact absurd (congrArg (fun x => x.1) h) (by simp)
  case _ payload heq =>
    have hpay : payload = t := by
      by_cases he : t.exp ≤ now
      · simp only [decode_token, if_pos he] at heq
        exact Except.noConfusion heq
      · simp only [decode_token, if_neg he] at heq
        exact ((Except.ok.injEq _ _).mp heq).symm
    subst hpay
    split at h
    · split at h
      · exact absurd (congrArg (fun x => x.1) h) (by simp)
      case _ session hs =>
        split at h
        · exact absurd (congrArg (fun x => x.1) h) (by simp)
        case _ account ha =>
          simp only [Prod.mk.injEq, Except.ok.injEq] at h
          obtain ⟨h1, h2, h3⟩ := h
          refine ⟨session,
            ⟨account.id, (create_tokens cfg account.id now).refresh_token,
              now + cfg.refreshTTL, session.ipAddress, true⟩, hs, ?_, ?_, ?_, rfl, rfl, rfl⟩
          · rw [← h3, ← h2]
          · rw [← h2]
          · rw [← h1]
    · exact absurd (congrArg (fun x => x.1) h) (by simp)

/-- C2 amended witness: the concrete run of `c2db` satisfies the two-commit
description. -/
theorem c2_amended_witness :
    ∃ s newS,
      c2db.sessions.find? (fun s2 => s2.sessionToken == c2tok && s2.isActive) = some s
      ∧ (refresh_tokens defaultCfg c2db (some c2tok) 10).2.2
          = [⟨c2db.accounts, deactivate_first c2db.sessions c2tok⟩,
              (refresh_tokens defaultCfg c2db (some c2tok) 10).2.1]
      ∧ (refresh_tokens defaultCfg c2db (some c2tok) 10).2.1
          = ⟨c2db.accounts, deactivate_first c2db.sessions c2tok ++ [newS]⟩
      ∧ newS.sessionToken = ⟨1, 604810, TokenType.refresh⟩
      ∧ newS.isActive = true
      ∧ newS.ipAddress = s.ipAddress
      ∧ newS.expiresAt = 10 + defaultCfg.refreshTTL := by
  obtain ⟨s, newS, h1, h2, h3, h4, h5, h6, h7⟩ :=
    c2_amended_two_commits defaultCfg c2db c2tok 10
      ⟨⟨1, 1810, TokenType.access⟩, ⟨1, 604810, TokenType.refresh⟩, 1800⟩
      (refresh_tokens defaultCfg c2db (some c2tok) 10).2.1
      (refresh_tokens defaultCfg c2db (some c2tok) 10).2.2 rfl
  exact ⟨s, newS, h1, h2, h3, by rw [h4], h5, h6, h7⟩

def c3acct : Account := ⟨1, "a@x.com", "alice", none, some "H"⟩

def c3db : TeamDB := ⟨[c3acct], [⟨10, "T", none, 1⟩], [], []⟩

/-- C3 counterexample: team 10 is owned by account 1, yet `add_members`
called by the owner with the owner's own id inserts `(10, 1)` into the
members relation and counts it — the owner's account id ends up stored in
the members relation, violating the claimed invariant. -/
theorem c3_counterexample :
    (findTeam c3db 10).map Team.ownerId = some 1
    ∧ add_members c3db 10 [1] 1
        = (Except.ok 1, ⟨[c3acct], [⟨10, "T", none, 1⟩], [(10, 1)], []⟩)
    ∧ inRelation (add_members c3db 10 [1] 1).2.teamMembers 10 1 = true :=
  ⟨rfl, rfl, rfl⟩

/-- C3 amended: `create_team` does establish the separation — a freshly
created team (fresh id) has empty members and managers relations, so its
owner is in neither — but the mutation operations do not preserve it:
`add_members` / `add_managers` accept the owner's own id (counterexample
above) and `transfer_ownership` does not remove the new owner from the
relations. -/
theorem c3_amended_create_team (db : TeamDB) (name : String) (av : Option String)
    (ownerId newId : Nat)
    (hm : ∀ p ∈ db.teamMembers, p.1 ≠ newId)
    (hg : ∀ p ∈ db.teamManagers, p.1 ≠ newId)
    (ht : ∀ t ∈ db.teams, t.id ≠ newId) :
    (create_team db name av ownerId newId).1 = Except.ok ⟨newId, name, av, ownerId⟩
    ∧ findTeam (create_team db name av ownerId newId).2 newId
        = some ⟨newId, name, av, ownerId⟩
    ∧ (∀ a, inRelation (create_team db name av ownerId newId).2.teamMembers newId a = false)
    ∧ (∀ a, inRelation (create_team db name av ownerId newId).2.teamManagers newId a = false) := by
  refine ⟨rfl, ?_, fun a => ?_, fun a => ?_⟩
  · unfold findTeam create_team
    rw [find?_append_none (by
      rw [List.find?_eq_none]
      intro x hx
      simp [ht x hx])]
    simp [findTeam]
  · unfold inRelation create_team
    have h : db.teamMembers.find? (fun p => p.1 == newId && p.2 == a) = none := by
      rw [List.find?_eq_none]
      intro x hx
      simp [hm x hx]
    simp [h]
  · unfold inRelation create_team
    have h : db.teamManagers.find? (fun p => p.1 == newId && p.2 == a) = none := by
      rw [List.find?_eq_none]
      intro x hx
      simp [hg x hx]
    simp [h]

/-- C3 amended witness: creating team 10 in an empty store leaves its owner
out of both relations. -/
theorem c3_amended_witness :
    (create_team ⟨[c3acct], [], [], []⟩ "T" none 1 10).1 = Except.ok ⟨10, "T", none, 1⟩
    ∧ inRelation (create_team ⟨[c3acct], [], [], []⟩ "T" none 1 10).2.teamMembers 10 1 = false
    ∧ inRelation (create_team ⟨[c3acct], [], [], []⟩ "T" none 1 10).2.teamManagers 10 1 = false := by
  obtain ⟨h1, _, h3, h4⟩ :=
    c3_amended_create_team ⟨[c3acct], [], [], []⟩ "T" none 1 10
      (by intro p hp; cases hp) (by intro p hp; cases hp) (by intro t htm; cases htm)
  exact ⟨h1, h3 1, h4 1⟩

theorem mem_of_inRelation (rel : List (Nat × Nat)) (t a : Nat)
    (h : inRelation rel t a = true) : (t, a) ∈ rel := by
  unfold inRelation at h
  cases hf : rel.find? (fun p => p.1 == t && p.2 == a) with
  | none => rw [hf] at h; cases h
  | some p =>
    have hp := List.find?_some hf
    have hmem := List.mem_of_find?_eq_some hf
    obtain ⟨p1, p2⟩ := p
    simp only [beq_iff_eq, Bool.and_eq_true] at hp
    rw [hp.1, hp.2] at hmem
    exact hmem

theorem not_mem_of_inRelation_false (rel : List (Nat × Nat)) (t a : Nat)
    (h : inRelation rel t a = false) : (t, a) ∉ rel := by
  intro hmem
  have hn : rel.find? (fun p => p.1 == t && p.2 == a) = none := by
    cases hf : rel.find? (fun p => p.1 == t && p.2 == a) with
    | none => rfl
    | some p => unfold inRelation at h; rw [hf] at h; cases h
  rw [List.find?_eq_none] at hn
  exact hn (t, a) hmem (by simp)

theorem addLoop_append (accounts : List Account) (teamId : Nat) :
    ∀ (ids : List Nat) (rel : List (Nat × Nat)),
      ∃ ins, addLoop accounts teamId ids rel = (rel ++ ins, ins.length)
        ∧ ∀ p ∈ ins, p.1 = teamId := by
  intro ids
  induction ids with
  | nil =>
    intro rel
    exact ⟨[], by simp [addLoop], by simp⟩
  | cons aid rest ih =>
    intro rel
    unfold addLoop
    cases hfa : findAccountById accounts aid with
    | none => exact ih rel
    | some acct =>
      by_cases hin : inRelation rel teamId aid = true
      · rw [if_pos hin]
        exact ih rel
      · rw [if_neg hin]
        obtain ⟨ins, hins, hall⟩ := ih (rel ++ [(teamId, aid)])
        refine ⟨(teamId, aid) :: ins, ?_, ?_⟩
        · rw [hins]
          simp
        · intro p hp
          cases hp with
          | head => rfl
          | tail _ hp2 => exact hall p hp2

theorem addLoop_mem (accounts : List Account) (teamId : Nat) :
    ∀ (ids : List Nat) (rel : List (Nat × Nat)) (a : Nat),
      ((teamId, a) ∈ (addLoop accounts teamId ids rel).1
        ↔ ((teamId, a) ∈ rel
            ∨ (a ∈ ids ∧ (findAccountById accounts a).isSome = true))) := by
  intro ids
  induction ids with
  | nil =>
    intro rel a
    simp [addLoop]
  | cons aid rest ih =>
    intro rel a
    unfold addLoop
    cases hfa : findAccountById accounts aid with
    | none =>
      rw [ih rel a]
      by_cases haa : a = aid
      · subst haa
        simp [hfa]
      · simp [List.mem_cons, haa]
    | some acct =>
      by_cases hin : inRelation rel teamId aid = true
      · rw [if_pos hin, ih rel a]
        by_cases haa : a = aid
        · subst haa
          have hmem := mem_of_inRelation rel teamId a hin
          simp [hmem]
        · simp [List.mem_cons, haa]
      · rw [if_neg hin]
        have hgoal := ih (rel ++ [(teamId, aid)]) a
        by_cases haa : a = aid
        · subst haa
          simp only [hgoal, List.mem_append, List.mem_singleton]
          simp [hfa]
        · simp only [hgoal, List.mem_append, List.mem_singleton]
          simp [List.mem_cons, haa]

theorem addLoop_nodup (accounts : List Account) (teamId : Nat) :
    ∀ (ids : List Nat) (rel : List (Nat × Nat)),
      rel.Nodup → (addLoop accounts teamId ids rel).1.Nodup := by
  intro ids
  induction ids with
  | nil =>
    intro rel h
    simpa [addLoop] using h
  | cons aid rest ih =>
    intro rel h
    unfold addLoop
    cases hfa : findAccountById accounts aid with
    | none => exact ih rel h
    | some acct =>
      by_cases hin : inRelation rel teamId aid = true
      · rw [if_pos hin]
        exact ih rel h
      · rw [if_neg hin]
        refine ih (rel ++ [(teamId, aid)]) ?_
        rw [List.nodup_append]
        refine ⟨h, List.nodup_singleton _, ?_⟩
        intro p hp hps
        rw [List.mem_singleton] at hps
        subst hps
        exact not_mem_of_inRelation_false rel teamId aid
          (Bool.not_eq_true _ ▸ hin) hp

/-- C7: with the team present and the owner calling, `add_members` reports
exactly the number of rows it appends (ids already present or without an
account row are skipped and not counted), the members relation stays
duplicate-free, and a pair `(teamId, a)` is present afterwards iff it was
present before or `a` was requested and has an account row — so adding the
same id twice leaves exactly one pair.  `remove_members` reports exactly the
number of rows deleted by the `IN`-filter (removing a non-present id is not
an error), and `add_managers` behaves like `add_members` on the managers
relation. -/
theorem c7_add_remove_counts (db : TeamDB) (teamId : Nat) (ids : List Nat)
    (team : Team) (hteam : findTeam db teamId = some team)
    (hnodup : db.teamMembers.Nodup) :
    (∃ ins, add_members db teamId ids team.ownerId
        = (Except.ok ins.length, { db with teamMembers := db.teamMembers ++ ins })
      ∧ (db.teamMembers ++ ins).Nodup
      ∧ (∀ a, (teamId, a) ∈ db.teamMembers ++ ins
          ↔ ((teamId, a) ∈ db.teamMembers
              ∨ (a ∈ ids ∧ (findAccountById db.accounts a).isSome = true))))
    ∧ (∃ m, remove_members db teamId ids team.ownerId
        = (Except.ok m,
            { db with teamMembers :=
                db.teamMembers.filter (fun p => !(p.1 == teamId && ids.contains p.2)) })
      ∧ m + (db.teamMembers.filter
            (fun p => !(p.1 == teamId && ids.contains p.2))).length
          = db.teamMembers.length)
    ∧ (∃ ins2, add_managers db teamId ids team.ownerId
        = (Except.ok ins2.length, { db with teamManagers := db.teamManagers ++ ins2 })) := by
  have hown : (team.ownerId == team.ownerId) = true := by simp
  refine ⟨?_, ?_, ?_⟩
  · obtain ⟨ins, hins, -⟩ := addLoop_append db.accounts teamId ids db.teamMembers
    refine ⟨ins, ?_, ?_, ?_⟩
    · simp only [add_members, hteam, hown, Bool.not_true, Bool.false_and,
        Bool.false_eq_true, if_false, hins]
    · have := addLoop_nodup db.accounts teamId ids db.teamMembers hnodup
      rwa [hins] at this
    · intro a
      have := addLoop_mem db.accounts teamId ids db.teamMembers a
      rwa [hins] at this
  · refine ⟨db.teamMembers.length
      - (db.teamMembers.filter (fun p => !(p.1 == teamId && ids.contains p.2))).length,
      ?_, ?_⟩
    · simp only [remove_members, hteam, hown, Bool.not_true, Bool.false_and,
        Bool.false_eq_true, if_false, deleteFromRelation]
    · have hle := List.length_filter_le
        (fun p => !(p.1 == teamId && ids.contains p.2)) db.teamMembers
      omega
  · obtain ⟨ins2, hins2, -⟩ := addLoop_append db.accounts teamId ids db.teamManagers
    refine ⟨ins2, ?_⟩
    simp only [add_managers, hteam, hown, Bool.not_true, Bool.false_eq_true,
      if_false, hins2]

def c7db : TeamDB :=
  ⟨[⟨1, "a", "a", none, none⟩, ⟨2, "b", "b", none, none⟩], [⟨10, "T", none, 1⟩], [], []⟩

/-- C7 witness: owner 1 adds `[2, 2, 3]` to team 10 — account 2 exists and
is inserted once, the duplicate request and the non-existent account 3 are
skipped — and removes a non-present id without error. -/
theorem c7_witness :
    (∃ ins, add_members c7db 10 [2, 2, 3] 1
        = (Except.ok ins.length, { c7db with teamMembers := c7db.teamMembers ++ ins })
      ∧ (c7db.teamMembers ++ ins).Nodup
      ∧ (∀ a, (10, a) ∈ c7db.teamMembers ++ ins
          ↔ ((10, a) ∈ c7db.teamMembers
              ∨ (a ∈ [2, 2, 3] ∧ (findAccountById c7db.accounts a).isSome = true))))
    ∧ (∃ m, remove_members c7db 10 [2, 2, 3] 1
        = (Except.ok m,
            { c7db with teamMembers :=
                c7db.teamMembers.filter (fun p => !(p.1 == 10 && [2, 2, 3].contains p.2)) })
      ∧ m + (c7db.teamMembers.filter
            (fun p => !(p.1 == 10 && [2, 2, 3].contains p.2))).length
          = c7db.teamMembers.length)
    ∧ (∃ ins2, add_managers c7db 10 [2, 2, 3] 1
        = (Except.ok ins2.length, { c7db with teamManagers := c7db.teamManagers ++ ins2 })) :=
  c7_add_remove_counts c7db 10 [2, 2, 3] ⟨10, "T", none, 1⟩ rfl (by decide)

def c1db : AuthDB := ⟨[⟨1, "a@x.com", "alice", none, some "H"⟩], []⟩

def c1vfy : String → String → Bool := fun p h => p == "pw" && h == "H"

def c1tok : Token := ⟨1, 604800, TokenType.refresh⟩

/-- C1 counterexample: when the refresh happens in the same (whole-second)
instant as the login, the rotated refresh token is byte-identical to the
original one — the JWT payload (subject, expiry second, kind) is identical
and HS256 encoding is deterministic — so the new active session carries the
*original* token string, and a second refresh presenting the original token
succeeds instead of failing with `SessionNotFound`, even though the token
is far from expired. -/
theorem c1_counterexample :
    (login c1vfy defaultCfg c1db "a@x.com" "pw" none 0).1
      = Except.ok (⟨1, "a@x.com", "alice", none, some "H"⟩,
          ⟨⟨1, 1800, TokenType.access⟩, c1tok, 1800⟩)
    ∧ (refresh_tokens defaultCfg (login c1vfy defaultCfg c1db "a@x.com" "pw" none 0).2
        (some c1tok) 0).1.isOk = true
    ∧ (refresh_tokens defaultCfg
        (refresh_tokens defaultCfg (login c1vfy defaultCfg c1db "a@x.com" "pw" none 0).2
          (some c1tok) 0).2.1
        (some c1tok) 0).1
      = Except.ok ⟨⟨1, 1800, TokenType.access⟩, c1tok, 1800⟩ :=
  ⟨rfl, rfl, rfl⟩

/-- C1 amended: provided the refresh is issued at a different (whole-second)
timestamp than the login — so the rotated refresh token differs from the
original — and the login-issued token string is fresh in the session store,
a successful `login` followed by a successful `refresh` leaves the original
refresh token permanently invalid: a second `refresh` presenting the
original token fails with `SessionNotFound` and commits nothing, even
though the original token's encoded expiry has not passed. -/
theorem c1_amended_rotation (verify : String → String → Bool) (cfg : Cfg)
    (db : AuthDB) (email password : String) (ip : Option String)
    (acct : Account) (t1 t2 t3 : Nat)
    (hfind : db.accounts.find? (fun a => a.email == email) = some acct)
    (hpw : (!truthyHash acct.passwordHash
        || !verify password (acct.passwordHash.getD "")) = false)
    (hfresh : ∀ s ∈ db.sessions, s.sessionToken ≠ create_refresh_token cfg acct.id t1)
    (hacct : (db.accounts.find? (fun a => a.id == acct.id)).isSome = true)
    (ht2 : t2 < t1 + cfg.refreshTTL) (ht3 : t3 < t1 + cfg.refreshTTL)
    (hne : t2 ≠ t1) :
    ∃ db1 pair2 db2 commits,
      login verify cfg db email password ip t1
        = (Except.ok (acct, create_tokens cfg acct.id t1), db1)
      ∧ refresh_tokens cfg db1 (some (create_refresh_token cfg acct.id t1)) t2
          = (Except.ok pair2, db2, commits)
      ∧ refresh_tokens cfg db2 (some (create_refresh_token cfg acct.id t1)) t3
          = (Except.error sessionNotFoundErr, db2, []) := by
  have hty : (create_refresh_token cfg acct.id t1).typ = TokenType.refresh := rfl
  have hsub : (create_refresh_token cfg acct.id t1).sub = acct.id := rfl
  have hexp : (create_refresh_token cfg acct.id t1).exp = t1 + cfg.refreshTTL := rfl
  obtain ⟨a2, ha2⟩ := Option.isSome_iff_exists.mp hacct
  have ha2id : a2.id = acct.id := by
    have := List.find?_some ha2
    simpa [beq_iff_eq] using this
  have ha2x : db.accounts.find?
      (fun a => a.id == (create_refresh_token cfg acct.id t1).sub) = some a2 := by
    rw [show (fun (a : Account) => a.id == (create_refresh_token cfg acct.id t1).sub)
        = (fun (a : Account) => a.id == acct.id) from by
      funext a
      rw [hsub]]
    exact ha2
  have hpredfalse : ∀ x ∈ db.sessions,
      (x.sessionToken == create_refresh_token cfg acct.id t1 && x.isActive) = false := by
    intro x hx
    have hnx := hfresh x hx
    simp [hnx]
  have hdecode2 : decode_token (some (create_refresh_token cfg acct.id t1)) t2
      = Except.ok (create_refresh_token cfg acct.id t1) := by
    simp only [decode_token]
    rw [if_neg (by rw [hexp]; omega)]
  have hdecode3 : decode_token (some (create_refresh_token cfg acct.id t1)) t3
      = Except.ok (create_refresh_token cfg acct.id t1) := by
    simp only [decode_token]
    rw [if_neg (by rw [hexp]; omega)]
  have hfind1 : (db.sessions
        ++ [(⟨acct.id, create_refresh_token cfg acct.id t1, t1 + cfg.refreshTTL, ip, true⟩ : SessionRow)]).find?
      (fun (s : SessionRow) => s.sessionToken == create_refresh_token cfg acct.id t1 && s.isActive)
      = some ⟨acct.id, create_refresh_token cfg acct.id t1, t1 + cfg.refreshTTL, ip, true⟩ := by
    rw [find?_append_none (List.find?_eq_none.mpr (fun x hx => by
      simp [hpredfalse x hx]))]
    rw [List.find?_cons]
    simp
  have hdeact : deactivate_first
      (db.sessions
        ++ [(⟨acct.id, create_refresh_token cfg acct.id t1, t1 + cfg.refreshTTL, ip, true⟩ : SessionRow)])
      (create_refresh_token cfg acct.id t1)
      = db.sessions
        ++ [(⟨acct.id, create_refresh_token cfg acct.id t1, t1 + cfg.refreshTTL, ip, false⟩ : SessionRow)] := by
    rw [deactivate_first_append_nomatch db.sessions _ _ hpredfalse]
    congr 1
    unfold deactivate_first
    rw [if_pos (by simp)]
  have hfindnone : ((db.sessions
        ++ [(⟨acct.id, create_refresh_token cfg acct.id t1, t1 + cfg.refreshTTL, ip, false⟩ : SessionRow)])
        ++ [(⟨a2.id, create_refresh_token cfg a2.id t2, t2 + cfg.refreshTTL, ip, true⟩ : SessionRow)]).find?
      (fun (s : SessionRow) => s.sessionToken == create_refresh_token cfg acct.id t1 && s.isActive)
      = none := by
    rw [List.find?_eq_none]
    intro x hx
    rcases List.mem_append.mp hx with hx1 | hx2
    · rcases List.mem_append.mp hx1 with hx0 | hxs0
      · simp [hpredfalse x hx0]
      · rw [List.mem_singleton] at hxs0
        subst hxs0
        simp
    · rw [List.mem_singleton] at hx2
      subst hx2
      intro hcontra
      simp only [Bool.and_eq_true, beq_iff_eq] at hcontra
      have hexps := congrArg Token.exp hcontra.1
      simp only [create_refresh_token] at hexps
      omega
  refine ⟨{ db with sessions := db.sessions
        ++ [(⟨acct.id, create_refresh_token cfg acct.id t1, t1 + cfg.refreshTTL, ip, true⟩ : SessionRow)] },
    create_tokens cfg a2.id t2,
    { db with sessions := (db.sessions
        ++ [(⟨acct.id, create_refresh_token cfg acct.id t1, t1 + cfg.refreshTTL, ip, false⟩ : SessionRow)])
        ++ [(⟨a2.id, create_refresh_token cfg a2.id t2, t2 + cfg.refreshTTL, ip, true⟩ : SessionRow)] },
    [{ db with sessions := db.sessions
        ++ [(⟨acct.id, create_refresh_token cfg acct.id t1, t1 + cfg.refreshTTL, ip, false⟩ : SessionRow)] },
      { db with sessions := (db.sessions
        ++ [(⟨acct.id, create_refresh_token cfg acct.id t1, t1 + cfg.refreshTTL, ip, false⟩ : SessionRow)])
        ++ [(⟨a2.id, create_refresh_token cfg a2.id t2, t2 + cfg.refreshTTL, ip, true⟩ : SessionRow)] }],
    ?_, ?_, ?_⟩
  · simp only [login, hfind, hpw, Bool.false_eq_true, if_false]
    rfl
  · simp only [refresh_tokens, hdecode2, hty, if_true, hfind1, ha2x, hdeact]
    rfl
  · simp only [refresh_tokens, hdecode3, hty, if_true, hfindnone]

/-- C1 amended witness: login at second 0, refresh at second 1, second
refresh with the original token at second 2 fails with `SessionNotFound`. -/
theorem c1_amended_witness :
    ∃ db1 pair2 db2 commits,
      login c1vfy defaultCfg c1db "a@x.com" "pw" none 0
        = (Except.ok (⟨1, "a@x.com", "alice", none, some "H"⟩,
            create_tokens defaultCfg 1 0), db1)
      ∧ refresh_tokens defaultCfg db1 (some (create_refresh_token defaultCfg 1 0)) 1
          = (Except.ok pair2, db2, commits)
      ∧ refresh_tokens defaultCfg db2 (some (create_refresh_token defaultCfg 1 0)) 2
          = (Except.error sessionNotFoundErr, db2, []) :=
  c1_amended_rotation c1vfy defaultCfg c1db "a@x.com" "pw" none
    ⟨1, "a@x.com", "alice", none, some "H"⟩ 0 1 2
    rfl (by decide) (fun s hs => absurd hs (List.not_mem_nil s)) rfl
    (by decide) (by decide) (by decide)

end Kosix
